import Mathlib

/-!
Shallow embedding of the two components of the excel-to-pdf repository:
`src/components/WebConverter.tsx` and `src/components/AIAssistant.tsx`.

State held in React `useState` hooks becomes fields of explicit state
records; the two `setInterval` loops become boolean "registered" flags plus
the closure-local counters (`prog`, `telIdx`); timer callbacks become step
functions that are no-ops when the corresponding flag is off.  Browser side
effects (`a.click()` downloads, `onErrorUpdate` calls to the host) are
modelled as returned values resp. a `hostError` field holding the last
value forwarded to the host.  The XLSX library calls are modelled by the
data handed to them (rows, column widths, sheet name), since the library
itself is external to the repository.
-/

/-- The `format` prop of `WebConverter` (`'excel' | 'word'`). -/
inductive ConvFormat
  | excel
  | word
deriving DecidableEq

/-- An uploaded `File`: the code only ever reads `.name`, but we carry the
bytes so that independence from them is expressible. -/
structure FileModel where
  name : String
  bytes : List Nat
deriving DecidableEq

/-- The result blob of `finishConversion`: either the workbook data handed
to the XLSX library (rows, per-column widths, sheet name) or a plain-text
payload. -/
inductive Payload
  | xlsx (rows : List (List String)) (cols : List Nat) (sheetName : String)
  | text (content : String)
deriving DecidableEq

/-- The `error` state of `WebConverter`: `{ message, detail? }`. -/
structure ErrorInfo where
  message : String
  detail : Option String
deriving DecidableEq

/-- ASCII lower-casing of one character, as `String.prototype.toLowerCase`
acts on the ASCII strings occurring in this code base. -/
def jsLowerChar (c : Char) : Char :=
  if 'A' ≤ c ∧ c ≤ 'Z' then Char.ofNat (c.toNat + 32) else c

/-- JavaScript `query.toLowerCase()` for ASCII strings. -/
def jsToLower (s : String) : String :=
  String.mk (s.data.map jsLowerChar)

/-- Substring test on character lists: does `pat` occur inside the list? -/
def listContainsSub (pat : List Char) : List Char → Bool
  | [] => pat.isEmpty
  | c :: t => pat.isPrefixOf (c :: t) || listContainsSub pat t

/-- JavaScript `s.includes(pat)` for strings. -/
def strContains (s pat : String) : Bool :=
  listContainsSub pat.data s.data

/-- Remove the first occurrence of `pat` from the list, if any —
the semantics of JavaScript `String.prototype.replace` with a string
pattern and an empty replacement. -/
def replaceFirstAux (pat : List Char) : List Char → List Char
  | [] => []
  | c :: t => if pat.isPrefixOf (c :: t) then (c :: t).drop pat.length
              else c :: replaceFirstAux pat t

/-- JavaScript `s.replace(pat, '')` for a string (non-regex) pattern. -/
def jsReplaceFirst (s pat : String) : String :=
  String.mk (replaceFirstAux pat.data s.data)

/-- Whitespace splitting: `message.split(/\s+/).filter(w => w.length > 0)`. -/
def splitWordsAux : List Char → List Char → List String
  | [], acc => if acc.isEmpty then [] else [String.mk acc.reverse]
  | c :: rest, acc =>
      if c = ' ' ∨ c = '\t' ∨ c = '\n' ∨ c = '\r' then
        if acc.isEmpty then splitWordsAux rest []
        else String.mk acc.reverse :: splitWordsAux rest []
      else splitWordsAux rest (c :: acc)

/-- The nonempty whitespace-separated words of a string. -/
def splitWords (s : String) : List String :=
  splitWordsAux s.data []

/-- The fixed sentence used for the excel payload (WebConverter.tsx line 83). -/
def fallbackMessage : String :=
  "System status: Cloud engine offline. Local word extraction active."

/-- The words of `fallbackMessage` (WebConverter.tsx line 86). -/
def fallbackWords : List String :=
  splitWords fallbackMessage

/-- The blob produced by `finishConversion` (WebConverter.tsx lines 80-107):
for `excel` a one-row worksheet of `fallbackWords` with column widths
`word.length + 2` on sheet "Word Grid"; for `word` a plain-text report
mentioning the source file name and the timestamp.  Only
`selectedFile.name` is ever read. -/
def conversionBlob (format : ConvFormat) (selectedFile : FileModel)
    (timestamp : String) : Payload :=
  match format with
  | .excel =>
      Payload.xlsx [fallbackWords] (fallbackWords.map fun w => w.length + 2)
        "Word Grid"
  | .word =>
      Payload.text ("LOCAL_EXTRACTION_REPORT\nSource: " ++ selectedFile.name ++
        "\nStatus: Gemini AI Removed\nTimestamp: " ++ timestamp)

/-- The extension chosen in `triggerDownload` (WebConverter.tsx line 131). -/
def formatExt (format : ConvFormat) : String :=
  match format with
  | .excel => "xlsx"
  | .word => "txt"

/-- The `a.download` filename (WebConverter.tsx line 132):
`originalName.replace('.pdf', '') + '_v42.' + extension`. -/
def downloadFilename (format : ConvFormat) (originalName : String) : String :=
  jsReplaceFirst originalName ".pdf" ++ "_v42." ++ formatExt format

/-- Function `triggerDownload` (WebConverter.tsx lines 127-137): the observable
side effect is the (filename, blob) pair handed to the browser. -/
def triggerDownload (format : ConvFormat) (blob : Payload)
    (originalName : String) : String × Payload :=
  (downloadFilename format originalName, blob)

/-- The six telemetry labels (WebConverter.tsx lines 26-33). -/
def telemetryLabels : List String :=
  ["LOCAL_BUFFER_SCANNING",
   "PARSING_FILE_HEADER",
   "RECONSTRUCTING_SCHEMA",
   "OPTIMIZING_DELIMITERS",
   "STRIPPING_INTERACTIVE_LAYERS",
   "SERIALIZING_OUTPUT_BUFFER"]

/-- The full mutable state of one `WebConverter` instance: the eight
`useState` hooks, the two interval registrations with their closure-local
counters, and the last error value forwarded to the host via
`onErrorUpdate`. -/
structure ConverterState where
  file : Option FileModel
  loading : Bool
  downloadReady : Bool
  error : Option ErrorInfo
  statusMessage : String
  telemetry : String
  simProgress : ℚ
  resultBlob : Option Payload
  progressTimerActive : Bool
  telemetryTimerActive : Bool
  prog : ℚ
  telIdx : Nat
  hostError : Option String
deriving DecidableEq

/-- The initial (Idle) state of the component (WebConverter.tsx lines 14-24). -/
def idleState : ConverterState :=
  { file := none
    loading := false
    downloadReady := false
    error := none
    statusMessage := ""
    telemetry := "SYSTEM_IDLE"
    simProgress := 0
    resultBlob := none
    progressTimerActive := false
    telemetryTimerActive := false
    prog := 0
    telIdx := 0
    hostError := none }

/-- Function `startConversion` (WebConverter.tsx lines 50-72): enters the running
state and registers both intervals with fresh closure counters.  The
selected file is captured by the interval closures, so the tick functions
below take it as a parameter. -/
def startConversion (_selectedFile : FileModel) (s : ConverterState) :
    ConverterState :=
  { s with loading := true
           error := none
           hostError := none
           downloadReady := false
           statusMessage := "UPLOADING_STREAM"
           progressTimerActive := true
           prog := 0
           telemetryTimerActive := true
           telIdx := 0 }

/-- Function `handleFileChange` (WebConverter.tsx lines 35-48) with a file present:
clears the previous task's result and error state, then starts a run. -/
def handleFileChange (selectedFile : FileModel) (s : ConverterState) :
    ConverterState :=
  startConversion selectedFile
    { s with file := some selectedFile
             downloadReady := false
             error := none
             hostError := none
             statusMessage := ""
             resultBlob := none
             simProgress := 0 }

/-- Function `cleanupTimers` (WebConverter.tsx lines 117-120). -/
def cleanupTimers (s : ConverterState) : ConverterState :=
  { s with progressTimerActive := false
           telemetryTimerActive := false }

/-- Function `finishConversion` (WebConverter.tsx lines 74-115): cancels both
timers, builds the blob, marks the task succeeded.  The auto-download it
triggers is `triggerDownload (conversionBlob …) selectedFile.name`. -/
def finishConversion (format : ConvFormat) (selectedFile : FileModel)
    (timestamp : String) (s : ConverterState) : ConverterState :=
  let s1 := cleanupTimers s
  { s1 with statusMessage := "EXTRACTION_SUCCESS"
            resultBlob := some (conversionBlob format selectedFile timestamp)
            downloadReady := true
            loading := false }

/-- The per-tick increment of the progress interval
(WebConverter.tsx line 59): `prog < 40 ? 4.5 : (prog < 85 ? 1.2 : 0.5)`. -/
def progressInc (p : ℚ) : ℚ :=
  if p < 40 then 4.5 else if p < 85 then 1.2 else 0.5

/-- One firing of the progress interval callback (WebConverter.tsx
lines 58-65); a no-op when the interval is not registered. -/
def progressTick (format : ConvFormat) (selectedFile : FileModel)
    (timestamp : String) (s : ConverterState) : ConverterState :=
  if s.progressTimerActive then
    let p := s.prog + progressInc s.prog
    let s1 := { s with prog := p, simProgress := min p 100 }
    if 100 ≤ p then finishConversion format selectedFile timestamp s1 else s1
  else s

/-- One firing of the telemetry interval callback (WebConverter.tsx
lines 68-71); a no-op when the interval is not registered. -/
def telemetryTick (s : ConverterState) : ConverterState :=
  if s.telemetryTimerActive then
    { s with telemetry := telemetryLabels.getD (s.telIdx % telemetryLabels.length) "SYSTEM_IDLE"
             telIdx := s.telIdx + 1 }
  else s

/-- Function `resetTask` (WebConverter.tsx lines 139-148).  Note what the source
does NOT touch: `loading`, the two interval registrations and their
closure counters. -/
def resetTask (s : ConverterState) : ConverterState :=
  { s with file := none
           downloadReady := false
           resultBlob := none
           statusMessage := ""
           simProgress := 0
           telemetry := "SYSTEM_IDLE"
           error := none
           hostError := none }

/-- The upload drop zone with its `<input type="file">` is rendered only in
the first branch of the component's markup, guarded by
`!loading && !downloadReady` (WebConverter.tsx line 181). -/
def fileInputRendered (s : ConverterState) : Bool :=
  !s.loading && !s.downloadReady

/-- A file-selection event at the component level: it reaches
`handleFileChange` only when the file input is mounted
(WebConverter.tsx lines 181-191). -/
def uiSelectFile (selectedFile : FileModel) (s : ConverterState) :
    ConverterState :=
  if fileInputRendered s then handleFileChange selectedFile s else s

/-- The RE-DOWNLOAD button (WebConverter.tsx lines 234-239):
`resultBlob && file && triggerDownload(resultBlob, file.name)`, with the
extension taken from the `format` prop at click time. -/
def redownload (format : ConvFormat) (s : ConverterState) :
    Option (String × Payload) :=
  match s.resultBlob, s.file with
  | some blob, some f => some (triggerDownload format blob f.name)
  | _, _ => none

/-- The value of the interval-local `prog` variable after `n` ticks of a
single uninterrupted run (WebConverter.tsx lines 57-59). -/
def progAt : Nat → ℚ
  | 0 => 0
  | n + 1 => progAt n + progressInc (progAt n)

/-- The displayed progress after `n` ticks: `Math.min(prog, 100)`
(WebConverter.tsx line 60). -/
def simProgressAt (n : Nat) : ℚ :=
  min (progAt n) 100

/-- The four canned replies of `getStaticResponse`
(AIAssistant.tsx lines 18-30): the remediation reply. -/
def remediationReply : String :=
  "I recommend verifying the PDF structure. If the extraction fails, try flattening the PDF or ensuring it's not password protected."

/-- The format-capability reply (AIAssistant.tsx line 24). -/
def formatReply : String :=
  "The system uses high-fidelity extraction for both formats. Excel is optimized for tabular data, while Word preserves layout structures."

/-- The usage reply (AIAssistant.tsx line 27). -/
def helpReply : String :=
  "Upload your document in the Processing Unit, select your target format (.XLSX or .DOCX), and initiate the conversion."

/-- The generic acknowledgment (AIAssistant.tsx line 29). -/
def genericReply : String :=
  "Command received. The system is operating within normal parameters. Please proceed with your document conversion."

/-- Function `getStaticResponse` (AIAssistant.tsx lines 18-30): lower-case
the query, then match keyword groups in order, first match wins. -/
def getStaticResponse (query : String) : String :=
  let q := jsToLower query
  if strContains q "error" || strContains q "fail" then remediationReply
  else if strContains q "excel" || strContains q "word" then formatReply
  else if strContains q "how" || strContains q "help" then helpReply
  else genericReply

/-- A transcript message role (`'user' | 'ai'`, AIAssistant.tsx line 9). -/
inductive ChatRole
  | user
  | ai
deriving DecidableEq

/-- One transcript message of `AIAssistant`. -/
structure ChatMessage where
  role : ChatRole
  text : String
deriving DecidableEq

/-- The state of one `AIAssistant` instance touched by the error-signal
effect: the transcript and the `errorAcknowledged` ref
(AIAssistant.tsx lines 9-15).  The `input` and `loading` hooks are never
read or written by that effect and are carried unchanged. -/
structure AssistantState where
  messages : List ChatMessage
  errorAcknowledged : Option String
  input : String
  loading : Bool
deriving DecidableEq

/-- The initial assistant state (AIAssistant.tsx lines 9-15). -/
def initialAssistantState : AssistantState :=
  { messages := [⟨ChatRole.ai, "System Guide active. I can assist with your document conversion parameters."⟩]
    errorAcknowledged := none
    input := ""
    loading := false }

/-- The proactive alert text appended for error value `e`
(AIAssistant.tsx line 42). -/
def errorAlertText (e : String) : String :=
  "SYSTEM_ALERT: Detected an extraction anomaly. Status: \"" ++ e ++
    "\".\n\nSuggested Protocol:\n1. Check document integrity.\n2. Verify format compatibility.\n3. Retry the operation."

/-- One delivery of the `errorState` prop to the proactive-error effect
(AIAssistant.tsx lines 37-45): `errorState && errorState !==
errorAcknowledged.current` guards the append, where a JavaScript string is
truthy iff nonempty. -/
def deliverErrorSignal (errorState : Option String) (st : AssistantState) :
    AssistantState :=
  match errorState with
  | none => st
  | some e =>
      if e ≠ "" ∧ st.errorAcknowledged ≠ some e then
        { st with errorAcknowledged := some e
                  messages := st.messages ++ [⟨ChatRole.ai, errorAlertText e⟩] }
      else st

/-- Helper: every tick increment is positive. -/
lemma progressInc_pos (p : ℚ) : 0 < progressInc p := by
  unfold progressInc
  split
  · norm_num
  · split <;> norm_num

/-- Helper: the closure counter never goes negative. -/
lemma progAt_nonneg (n : Nat) : 0 ≤ progAt n := by
  induction n with
  | zero => simp [progAt]
  | succ k ih =>
      have h := progressInc_pos (progAt k)
      simp only [progAt]
      linarith

/-- Helper: the closure counter is non-decreasing. -/
lemma progAt_le_succ (n : Nat) : progAt n ≤ progAt (n + 1) := by
  have h := progressInc_pos (progAt n)
  simp only [progAt]
  linarith

/-- Helper: `replaceFirstAux` leaves a list without an occurrence unchanged. -/
lemma replaceFirstAux_of_not_contains (pat : List Char) (s : List Char)
    (h : listContainsSub pat s = false) : replaceFirstAux pat s = s := by
  induction s with
  | nil => rfl
  | cons c t ih =>
      simp only [listContainsSub, Bool.or_eq_false_iff] at h
      simp [replaceFirstAux, h.1, ih h.2]

/-- Helper: `replaceFirstAux` removes exactly the first occurrence of the
pattern. -/
lemma replaceFirstAux_first_occ (pat : List Char) (hne : pat ≠ [])
    (s : List Char) (i : Nat)
    (hi : pat.isPrefixOf (s.drop i) = true)
    (hmin : ∀ j, j < i → pat.isPrefixOf (s.drop j) = false) :
    replaceFirstAux pat s = s.take i ++ s.drop (i + pat.length) := by
  induction s generalizing i with
  | nil =>
      exfalso
      apply hne
      rcases pat with _ | ⟨a, as⟩
      · rfl
      · simp [List.isPrefixOf] at hi
  | cons c t ih =>
      cases i with
      | zero =>
          simp only [List.drop] at hi
          simp [replaceFirstAux, hi]
      | succ j =>
          have h0 := hmin 0 (Nat.succ_pos j)
          simp only [List.drop_zero] at h0
          have hi' : pat.isPrefixOf (t.drop j) = true := by
            simpa using hi
          have hmin' : ∀ k, k < j → pat.isPrefixOf (t.drop k) = false := by
            intro k hk
            have := hmin (k + 1) (Nat.succ_lt_succ hk)
            simpa using this
          simp only [replaceFirstAux, h0, Bool.false_eq_true, if_false]
          rw [ih j hi' hmin']
          simp [List.take_succ_cons, List.drop_succ_cons, Nat.succ_add]

/-- C1: the claim says reaching 100% progress and calling reset mid-run
both cancel the two timers.  The 100%-path does cancel them
(`finishConversion` calls `cleanupTimers`), but `resetTask` never touches
the interval registrations: after resetting a running task both intervals
stay registered, a further progress tick moves `simProgress` from 0 to
4.5, and a further telemetry tick overwrites the freshly reset
"SYSTEM_IDLE" label — state mutation after teardown. -/
theorem reset_mid_run_leaks_timers :
    (resetTask (handleFileChange ⟨"a.pdf", []⟩ idleState)).progressTimerActive = true ∧
    (resetTask (handleFileChange ⟨"a.pdf", []⟩ idleState)).telemetryTimerActive = true ∧
    (resetTask (handleFileChange ⟨"a.pdf", []⟩ idleState)).simProgress = 0 ∧
    (progressTick .excel ⟨"a.pdf", []⟩ "t"
      (resetTask (handleFileChange ⟨"a.pdf", []⟩ idleState))).simProgress = 4.5 ∧
    (telemetryTick (resetTask (handleFileChange ⟨"a.pdf", []⟩ idleState))).telemetry =
      "LOCAL_BUFFER_SCANNING" ∧
    (resetTask (handleFileChange ⟨"a.pdf", []⟩ idleState)).telemetry = "SYSTEM_IDLE" ∧
    (∀ (format : ConvFormat) (f : FileModel) (ts : String) (s : ConverterState),
      (finishConversion format f ts s).progressTimerActive = false ∧
      (finishConversion format f ts s).telemetryTimerActive = false) := by
  refine ⟨by decide, by decide, rfl, ?_, by decide, by decide, ?_⟩
  · norm_num [progressTick, resetTask, handleFileChange, startConversion,
      idleState, progressInc, finishConversion, cleanupTimers]
  · intro format f ts s
    exact ⟨rfl, rfl⟩

/-- C2 counterexample: `resetTask` does not clear the `loading` flag, so
after resetting a running task (here: right after a file selection) the
task is still marked loading, not the Idle default `false`. -/
theorem reset_does_not_clear_loading :
    (resetTask (handleFileChange ⟨"a.pdf", []⟩ idleState)).loading = true := by
  decide

/-- C2 (amended): after `reset()` in any state, every task field except
the `loading` flag equals its Idle default — no file, download not ready,
no result payload, empty status message, idle telemetry label, progress 0,
no error — and the error signal forwarded to the host is null; the
`loading` flag is left unchanged. -/
theorem reset_restores_idle_fields (s : ConverterState) :
    (resetTask s).file = none ∧
    (resetTask s).downloadReady = false ∧
    (resetTask s).resultBlob = none ∧
    (resetTask s).statusMessage = "" ∧
    (resetTask s).simProgress = 0 ∧
    (resetTask s).telemetry = "SYSTEM_IDLE" ∧
    (resetTask s).error = none ∧
    (resetTask s).hostError = none ∧
    (resetTask s).loading = s.loading :=
  ⟨rfl, rfl, rfl, rfl, rfl, rfl, rfl, rfl, rfl⟩

/-- C3: while a run is in the Running state (`loading = true`) the upload
input is not rendered (WebConverter.tsx line 181), so a file-selection
event is ignored: no new run starts, no state changes, no error is
raised. -/
theorem file_selection_ignored_while_running (s : ConverterState)
    (f : FileModel) (h : s.loading = true) :
    uiSelectFile f s = s := by
  unfold uiSelectFile fileInputRendered
  rw [h]
  simp

/-- C3 witness: selecting a second file during the run started by a first
selection changes nothing. -/
theorem file_selection_ignored_while_running_witness :
    uiSelectFile ⟨"b.pdf", []⟩ (handleFileChange ⟨"a.pdf", []⟩ idleState) =
      handleFileChange ⟨"a.pdf", []⟩ idleState :=
  file_selection_ignored_while_running _ _ rfl

/-- C4 counterexample: delivering the error values "A", "B", "A" appends
three alerts although only two distinct values were delivered, and the
third delivery — of the already-surfaced value "A" — is not a no-op: the
component only remembers the last acknowledged value. -/
theorem alert_not_deduped_across_values :
    ((deliverErrorSignal (some "A")
        (deliverErrorSignal (some "B")
          (deliverErrorSignal (some "A") initialAssistantState))).messages.length = 4) ∧
    (deliverErrorSignal (some "A")
        (deliverErrorSignal (some "B")
          (deliverErrorSignal (some "A") initialAssistantState)) ≠
      deliverErrorSignal (some "B")
        (deliverErrorSignal (some "A") initialAssistantState)) := by
  constructor
  · simp [deliverErrorSignal, initialAssistantState]
  · intro h
    have h2 := congrArg (fun st => st.messages.length) h
    simp [deliverErrorSignal, initialAssistantState] at h2

/-- C4 (amended): de-duplication is only against the most recently
surfaced value: a delivery that is null, empty, or equal to the last
acknowledged value is a no-op; a non-empty delivery differing from the
last acknowledged value appends exactly one alert embedding the value and
records it as acknowledged.  Hence the same non-empty value delivered
twice in a row yields exactly one alert, but a value may be surfaced again
after a different value has intervened. -/
theorem alert_dedup_last_acknowledged (st : AssistantState) (e : String) :
    deliverErrorSignal none st = st ∧
    deliverErrorSignal (some "") st = st ∧
    (st.errorAcknowledged = some e → deliverErrorSignal (some e) st = st) ∧
    (e ≠ "" → st.errorAcknowledged ≠ some e →
      deliverErrorSignal (some e) st =
        { st with errorAcknowledged := some e
                  messages := st.messages ++ [⟨ChatRole.ai, errorAlertText e⟩] }) ∧
    (e ≠ "" → st.errorAcknowledged ≠ some e →
      (deliverErrorSignal (some e) st).messages.length = st.messages.length + 1) ∧
    (deliverErrorSignal (some e) (deliverErrorSignal (some e) st) =
      deliverErrorSignal (some e) st) := by
  refine ⟨rfl, by simp [deliverErrorSignal], ?_, ?_, ?_, ?_⟩
  · intro h
    simp [deliverErrorSignal, h]
  · intro he hack
    simp [deliverErrorSignal, he, hack]
  · intro he hack
    simp [deliverErrorSignal, he, hack]
  · by_cases he : e = ""
    · simp [deliverErrorSignal, he]
    · by_cases hack : st.errorAcknowledged = some e
      · simp [deliverErrorSignal, he, hack]
      · simp [deliverErrorSignal, he, hack]

/-- C4 witness: delivering "A" to the fresh assistant state appends
exactly one alert and records "A" as acknowledged. -/
theorem alert_dedup_last_acknowledged_witness :
    deliverErrorSignal (some "A") initialAssistantState =
      { initialAssistantState with
          errorAcknowledged := some "A"
          messages := initialAssistantState.messages ++
            [⟨ChatRole.ai, errorAlertText "A"⟩] } ∧
    (deliverErrorSignal (some "A") initialAssistantState).messages.length =
      initialAssistantState.messages.length + 1 := by
  have h := alert_dedup_last_acknowledged initialAssistantState "A"
  exact ⟨h.2.2.2.1 (by decide) (by decide), h.2.2.2.2.1 (by decide) (by decide)⟩

/-- C5 counterexample: `replace('.pdf', '')` removes the first occurrence
of ".pdf" anywhere in the name, not a ".pdf" suffix.  The name "a.pdfb"
has no ".pdf" suffix, so the claim predicts "a.pdfb_v42.xlsx", but the
code produces "ab_v42.xlsx". -/
theorem download_filename_not_suffix_strip :
    downloadFilename .excel "a.pdfb" = "ab_v42.xlsx" ∧
    downloadFilename .excel "a.pdfb" ≠ "a.pdfb_v42.xlsx" := by
  decide

/-- C5 (amended): the download filename is the source name with the first
occurrence of the substring ".pdf" removed (the name is unchanged when
".pdf" does not occur in it), followed by the fixed tag "_v42" and the
extension selected by the target format; in particular "report.pdf"
yields "report_v42.xlsx" under excel and "report_v42.txt" under word. -/
theorem download_filename_removes_first_pdf_occurrence
    (format : ConvFormat) (name other : String) (i : Nat)
    (hi : ".pdf".data.isPrefixOf (name.data.drop i) = true)
    (hmin : ∀ j, j < i → ".pdf".data.isPrefixOf (name.data.drop j) = false)
    (hno : listContainsSub ".pdf".data other.data = false) :
    downloadFilename format name =
      String.mk (name.data.take i ++ name.data.drop (i + 4)) ++ "_v42." ++
        formatExt format ∧
    downloadFilename format other = other ++ "_v42." ++ formatExt format ∧
    downloadFilename .excel "report.pdf" = "report_v42.xlsx" ∧
    downloadFilename .word "report.pdf" = "report_v42.txt" := by
  refine ⟨?_, ?_, by decide, by decide⟩
  · unfold downloadFilename jsReplaceFirst
    rw [replaceFirstAux_first_occ ".pdf".data (by decide) name.data i hi hmin]
    rfl
  · unfold downloadFilename jsReplaceFirst
    rw [replaceFirstAux_of_not_contains ".pdf".data other.data hno]

/-- C5 witness: in "a.pdfb" the first ".pdf" occurrence starts at index 1,
and "report" contains no ".pdf"; the theorem then computes both download
names. -/
theorem download_filename_removes_first_pdf_occurrence_witness :
    downloadFilename .excel "a.pdfb" =
      String.mk ("a.pdfb".data.take 1 ++ "a.pdfb".data.drop 5) ++ "_v42." ++
        formatExt .excel ∧
    downloadFilename .excel "report" = "report" ++ "_v42." ++ formatExt .excel ∧
    downloadFilename .excel "report.pdf" = "report_v42.xlsx" ∧
    downloadFilename .word "report.pdf" = "report_v42.txt" :=
  download_filename_removes_first_pdf_occurrence .excel "a.pdfb" "report" 1
    (by decide) (by decide) (by decide)

/-- C6: each progress tick adds 4.5 below 40, 1.2 from 40 up to 85, and
0.5 from 85 on; the displayed progress `min prog 100` is non-decreasing
and stays in [0, 100]; and a tick of a running, not-yet-succeeded task
makes it Succeeded (`downloadReady`) exactly when the counter reaches 100,
which is exactly when the displayed progress becomes 100. -/
theorem progress_policy (n : Nat) :
    (progAt n < 40 → progAt (n + 1) = progAt n + 4.5) ∧
    (40 ≤ progAt n → progAt n < 85 → progAt (n + 1) = progAt n + 1.2) ∧
    (85 ≤ progAt n → progAt (n + 1) = progAt n + 0.5) ∧
    progAt n ≤ progAt (n + 1) ∧
    0 ≤ simProgressAt n ∧
    simProgressAt n ≤ 100 ∧
    simProgressAt n ≤ simProgressAt (n + 1) ∧
    (simProgressAt n = 100 ↔ 100 ≤ progAt n) ∧
    (∀ (format : ConvFormat) (f : FileModel) (ts : String) (s : ConverterState),
      s.progressTimerActive = true → s.downloadReady = false →
      ((progressTick format f ts s).downloadReady = true ↔
        100 ≤ s.prog + progressInc s.prog)) := by
  refine ⟨?_, ?_, ?_, progAt_le_succ n, ?_, ?_, ?_, ?_, ?_⟩
  · intro h
    simp [progAt, progressInc, h]
  · intro h1 h2
    have h3 : ¬ progAt n < 40 := not_lt.mpr h1
    simp [progAt, progressInc, h3, h2]
  · intro h
    have h1 : ¬ progAt n < 40 := by linarith
    have h2 : ¬ progAt n < 85 := by linarith
    simp [progAt, progressInc, h1, h2]
  · exact le_min (progAt_nonneg n) (by norm_num)
  · exact min_le_right _ _
  · exact min_le_min (progAt_le_succ n) le_rfl
  · exact min_eq_right_iff
  · intro format f ts s h1 h2
    unfold progressTick
    rw [h1, if_pos rfl]
    by_cases hp : 100 ≤ s.prog + progressInc s.prog
    · simp [hp, finishConversion, cleanupTimers]
    · simp [hp, h2]

/-- C6 witness: the first tick adds 4.5 (the counter starts at 0 < 40),
and a tick of the state freshly entered by `startConversion` from Idle
succeeds exactly when its counter would reach 100. -/
theorem progress_policy_witness :
    progAt 1 = progAt 0 + 4.5 ∧
    ((progressTick .excel ⟨"a.pdf", []⟩ "t"
        (startConversion ⟨"a.pdf", []⟩ idleState)).downloadReady = true ↔
      100 ≤ (startConversion ⟨"a.pdf", []⟩ idleState).prog +
        progressInc (startConversion ⟨"a.pdf", []⟩ idleState).prog) := by
  have h := progress_policy 0
  refine ⟨h.1 ?_, h.2.2.2.2.2.2.2.2 .excel ⟨"a.pdf", []⟩ "t" _ rfl rfl⟩
  rw [show progAt 0 = (0 : ℚ) from rfl]
  norm_num

/-- C7: the result payload is a function of the target format, the source
file's name and the generation-time timestamp only — the uploaded bytes
are never read, so two files with the same name yield identical payloads
under the same format and timestamp. -/
theorem payload_independent_of_bytes (format : ConvFormat)
    (f g : FileModel) (ts : String) (h : f.name = g.name) :
    conversionBlob format f ts = conversionBlob format g ts := by
  cases format <;> simp [conversionBlob, h]

/-- C7 witness: two files named "a.pdf" with different bytes produce the
same word-format payload. -/
theorem payload_independent_of_bytes_witness :
    conversionBlob .word ⟨"a.pdf", [0]⟩ "t" =
      conversionBlob .word ⟨"a.pdf", [1]⟩ "t" :=
  payload_independent_of_bytes .word ⟨"a.pdf", [0]⟩ ⟨"a.pdf", [1]⟩ "t" rfl

/-- C8: the reply classifier lower-cases its input and tests the keyword
groups ("error"/"fail", then "excel"/"word", then "how"/"help") in order,
first match wins, falling through to the generic acknowledgment; the four
sample inputs classify as claimed. -/
theorem classifier_keyword_dispatch :
    (∀ q : String,
      (strContains (jsToLower q) "error" || strContains (jsToLower q) "fail") = true →
      getStaticResponse q = remediationReply) ∧
    (∀ q : String,
      (strContains (jsToLower q) "error" || strContains (jsToLower q) "fail") = false →
      (strContains (jsToLower q) "excel" || strContains (jsToLower q) "word") = true →
      getStaticResponse q = formatReply) ∧
    (∀ q : String,
      (strContains (jsToLower q) "error" || strContains (jsToLower q) "fail") = false →
      (strContains (jsToLower q) "excel" || strContains (jsToLower q) "word") = false →
      (strContains (jsToLower q) "how" || strContains (jsToLower q) "help") = true →
      getStaticResponse q = helpReply) ∧
    (∀ q : String,
      (strContains (jsToLower q) "error" || strContains (jsToLower q) "fail") = false →
      (strContains (jsToLower q) "excel" || strContains (jsToLower q) "word") = false →
      (strContains (jsToLower q) "how" || strContains (jsToLower q) "help") = false →
      getStaticResponse q = genericReply) ∧
    getStaticResponse "Why did my file error?" = remediationReply ∧
    getStaticResponse "compare excel and word" = formatReply ∧
    getStaticResponse "how do I start" = helpReply ∧
    getStaticResponse "hello" = genericReply := by
  refine ⟨?_, ?_, ?_, ?_, by decide, by decide, by decide, by decide⟩
  · intro q h
    simp [getStaticResponse, h]
  · intro q h1 h2
    simp [getStaticResponse, h1, h2]
  · intro q h1 h2 h3
    simp [getStaticResponse, h1, h2, h3]
  · intro q h1 h2 h3
    simp [getStaticResponse, h1, h2, h3]

/-- C8 witness: the remediation branch applied to the sample input, whose
lower-cased form contains "error". -/
theorem classifier_keyword_dispatch_witness :
    getStaticResponse "Why did my file error?" = remediationReply :=
  classifier_keyword_dispatch.1 "Why did my file error?" (by decide)

/-- C9: the excel payload is a single-sheet workbook with exactly one row,
whose cells are the whitespace-split words of the fixed fallback sentence,
each column sized to its word's length plus the constant padding 2. -/
theorem excel_payload_single_row_words (f : FileModel) (ts : String) :
    conversionBlob .excel f ts =
      Payload.xlsx [fallbackWords] (fallbackWords.map fun w => w.length + 2)
        "Word Grid" ∧
    fallbackWords = ["System", "status:", "Cloud", "engine", "offline.",
      "Local", "word", "extraction", "active."] ∧
    fallbackWords.map (fun w => w.length + 2) = [8, 9, 7, 8, 10, 7, 6, 12, 9] :=
  ⟨rfl, by decide, by decide⟩

/-- C10: re-download derives the filename extension from the `format` prop
at click time while the stored payload stays the one generated during the
run: a task finished under `fmtOrig` re-downloaded under `fmtNow` saves
the `fmtOrig` payload under a `fmtNow` filename; the excel and word
payloads for the same name and timestamp are never equal, so the switch is
observable. -/
theorem redownload_uses_current_format (fmtOrig fmtNow : ConvFormat)
    (name ts : String) (bs : List Nat) :
    redownload fmtNow
        (finishConversion fmtOrig ⟨name, bs⟩ ts
          (handleFileChange ⟨name, bs⟩ idleState)) =
      some (downloadFilename fmtNow name, conversionBlob fmtOrig ⟨name, bs⟩ ts) ∧
    conversionBlob .excel ⟨name, bs⟩ ts ≠ conversionBlob .word ⟨name, bs⟩ ts ∧
    redownload .word
        (finishConversion .excel ⟨"report.pdf", []⟩ "t"
          (handleFileChange ⟨"report.pdf", []⟩ idleState)) =
      some ("report_v42.txt", conversionBlob .excel ⟨"report.pdf", []⟩ "t") := by
  refine ⟨rfl, by simp [conversionBlob], ?_⟩
  have h : downloadFilename .word "report.pdf" = "report_v42.txt" := by decide
  simp [redownload, finishConversion, cleanupTimers, handleFileChange,
    startConversion, triggerDownload, h]
